import Mathlib

/-!
Shallow embedding of the pagination and record-mutation core of the pyeodh
client library (`pyeodh/pagination.py`, `pyeodh/resource_catalog.py`,
`pyeodh/utils.py`, `pyeodh/consts.py`), together with theorems checking the
natural-language specification against it.

JSON values decoded by `Client._request_json` are modelled by the inductive
type `J`; the Python value `None` is modelled by `J.null` throughout (Python's
`dict.get` returns `None` both for an absent key and for a stored null, so the
two need not be distinguished).  The HTTP transport is an oracle mapping a
request descriptor to either a decoded response or an error.  Every stateful
method of `PaginatedList` becomes a function from the state to a triple of
(result-or-exception, final state, list of requests issued), so claims about
request counts and about the state left behind by an exception are directly
expressible.
-/

namespace PyEodh

/-- Decoded JSON values.  `J.null` also stands for Python `None`. -/
inductive J : Type
  | null : J
  | bool (b : Bool) : J
  | num (n : Int) : J
  | str (s : String) : J
  | arr (xs : List J) : J
  | obj (fields : List (String × J)) : J

/-- Python truthiness of a JSON value (`bool(x)`). -/
def pyTruthy : J → Bool
  | .null => false
  | .bool b => b
  | .num n => n != 0
  | .str s => s != ""
  | .arr xs => !xs.isEmpty
  | .obj fs => !fs.isEmpty

/-- Dictionary lookup: `some v` when the value is an object carrying the key. -/
def jGet : J → String → Option J
  | .obj fs, k => (fs.find? (fun f => f.1 == k)).map (fun f => f.2)
  | _, _ => none

/-- Python `d.get(k)` on an object (absent key gives `None`). -/
def pyGet (j : J) (k : String) : J := (jGet j k).getD J.null

/-- Python `d.get(k, default)` on an object. -/
def pyGetD (j : J) (k : String) (d : J) : J := (jGet j k).getD d

/-- Errors a modelled operation can raise. -/
inductive PyErr : Type
  | runtimeError (msg : String) : PyErr
  | typeError : PyErr
  | attrError : PyErr
  | valueError : PyErr
  | indexError : PyErr
  | assertionError : PyErr
  | transportError : PyErr
  | conformanceError (uri : String) : PyErr
  | fuelExhausted : PyErr
  deriving DecidableEq

/-- Python `d.get(k)` raising `AttributeError` when `d` is not a dict. -/
def pyDictGet (j : J) (k : String) : Except PyErr J :=
  match j with
  | .obj fs => .ok (pyGet (J.obj fs) k)
  | _ => .error .attrError

/-- Python `d.get(k, default)` raising `AttributeError` when `d` is not a dict. -/
def pyDictGetD (j : J) (k : String) (d : J) : Except PyErr J :=
  match j with
  | .obj fs => .ok (pyGetD (J.obj fs) k d)
  | _ => .error .attrError

/-- Python `d[k] = v` on a dict: replaces the value in place, appends when new. -/
def jSetFields : List (String × J) → String → J → List (String × J)
  | [], k, v => [(k, v)]
  | (k', v') :: rest, k, v =>
      if k' = k then (k, v) :: rest else (k', v') :: jSetFields rest k v

/-- Python item assignment `d[k] = v` (`TypeError` on a non-dict). -/
def pySetItem (d : J) (k : String) (v : J) : Except PyErr J :=
  match d with
  | .obj fs => .ok (J.obj (jSetFields fs k v))
  | _ => .error .typeError

/-- Whether `pat` occurs as a contiguous run at the head of `l`. -/
def listStartsWith [DecidableEq α] : List α → List α → Bool
  | [], _ => true
  | _ :: _, [] => false
  | a :: as, b :: bs => if a = b then listStartsWith as bs else false

/-- Whether `pat` occurs as a contiguous run anywhere in `l`. -/
def listContainsRun [DecidableEq α] (pat : List α) : List α → Bool
  | [] => pat.isEmpty
  | b :: bs => listStartsWith pat (b :: bs) || listContainsRun pat bs

/-- Python `pat in s` on strings: substring test. -/
def strContains (s pat : String) : Bool := listContainsRun pat.toList s.toList

/-- Python `x == k` for a string `k`: values of a different type are simply
unequal. -/
def pyEqStr (x : J) (k : String) : Bool :=
  match x with
  | .str s => s == k
  | _ => false

/-- Python `k in d` (`TypeError` for containers that do not support it). -/
def pyIn (k : String) : J → Except PyErr Bool
  | .obj fs => .ok (fs.any (fun f => f.1 == k))
  | .arr xs => .ok (xs.any (fun x => pyEqStr x k))
  | .str s => .ok (strContains s k)
  | _ => .error .typeError

/-- Python iteration `for e in j` (`TypeError` for non-iterables). -/
def pyIter : J → Except PyErr (List J)
  | .arr xs => .ok xs
  | .obj fs => .ok (fs.map (fun f => J.str f.1))
  | .str s => .ok (s.toList.map (fun c => J.str (String.mk [c])))
  | _ => .error .typeError

/-- Python list indexing `xs[i]` with negative-index addressing from the end;
`none` models `IndexError`. -/
def pyListGet {α : Type} (xs : List α) (i : Int) : Option α :=
  let j : Int := if i < 0 then i + xs.length else i
  if 0 ≤ j then xs.get? j.toNat else none

/-- Python list slicing `xs[:n]`, including negative `n`. -/
def pyListTake {α : Type} (xs : List α) (n : Int) : List α :=
  if 0 ≤ n then xs.take n.toNat else xs.take ((xs.length : Int) + n).toNat

/-- `consts.PAGINATION_LIMIT`. -/
def PAGINATION_LIMIT : Int := 10

/-- An HTTP request descriptor as handed to `Client._request_json`:
method, url, headers, query params, request body. -/
structure Request : Type where
  method : String
  url : String
  headers : J
  params : J
  data : J

/-- The transport collaborator (`Client._request_json`): a request either
yields `(response headers, decoded JSON body)` or raises. -/
abbrev Transport : Type := Request → Except Unit (J × J)

/-- State of a `PaginatedList` (`pagination.PaginatedList.__init__`).  The
record constructor `_cls` and the client are parameters of the operations: the
constructor call `self._cls(self._client, headers, element, parent=...)` is
modelled by a function `cls : J → J → Rec` with client and parent folded in. -/
structure PL (Rec : Type) : Type where
  elements : List Rec
  method : String
  nextUrl : J
  headers : J
  params : J
  totalCount : J
  listKey : String
  data : J

/-- Python `x is None` for a JSON-or-None value. -/
def pyIsNone : J → Bool
  | .null => true
  | _ => false

/-- `PaginatedList._has_next` (`self._next_url is not None`). -/
def hasNext {Rec : Type} (s : PL Rec) : Bool := !pyIsNone s.nextUrl

/-- `next(filter(lambda ln: ln.get("rel") == "next", links), dict())` from
`_fetch_next`: the first link whose `rel` is `"next"`, the empty dict when
none; the predicate raises `AttributeError` on a non-dict element. -/
def findNextLink : List J → Except PyErr J
  | [] => .ok (J.obj [])
  | ln :: rest =>
    match ln with
    | .obj fs =>
      if pyEqStr (pyGet (J.obj fs) "rel") "next" then .ok (J.obj fs)
      else findNextLink rest
    | _ => .error .attrError

/-- The fetch-and-decode tail of `PaginatedList._fetch_next` (everything from
the `self._client._request_json(...)` call on), run on the state left by the
continuation-token rewrite, with `u` the URL string being requested.  Follows
the source line by line: locate the `next` link, replace the next descriptor,
overwrite the stored count from `context.matched`, return `[]` on an empty
envelope, select the array under `list_key` (whole envelope otherwise), and
decode every non-null element.  (The batch is returned, not appended:
appending to `_elements` is done by the callers, as in the source.) -/
def fetchNextCore {Rec : Type} (cls : J → J → Rec) (t : Transport) (s : PL Rec)
    (u : String) : Except PyErr (List Rec) × PL Rec × List Request :=
  let req : Request := ⟨s.method, u, s.headers, s.params, s.data⟩
  match t req with
  | .error _ => (.error .transportError, s, [req])
  | .ok (hdr, resp) =>
    match pyDictGetD resp "links" (J.obj []) with
    | .error e => (.error e, s, [req])
    | .ok links =>
      match pyIter links with
      | .error e => (.error e, s, [req])
      | .ok linkList =>
        match findNextLink linkList with
        | .error e => (.error e, s, [req])
        | .ok nextLink =>
          let s1 : PL Rec :=
            { s with nextUrl := pyGet nextLink "href", data := pyGet nextLink "body" }
          match pyDictGetD resp "context" (J.obj []) with
          | .error e => (.error e, s1, [req])
          | .ok ctx =>
            match pyDictGet ctx "matched" with
            | .error e => (.error e, s1, [req])
            | .ok matched =>
              let s2 : PL Rec := { s1 with totalCount := matched }
              if !pyTruthy resp then (.ok [], s2, [req])
              else
                match pyIn s.listKey resp with
                | .error e => (.error e, s2, [req])
                | .ok keyPresent =>
                  let body := if keyPresent then pyGet resp s.listKey else resp
                  match pyIter body with
                  | .error e => (.error e, s2, [req])
                  | .ok elems =>
                    (.ok ((elems.filter (fun e => !pyIsNone e)).map (cls hdr)),
                      s2, [req])

/-- Python `s.split(sep)` over character lists, fuel-bounded by the input
length: left-to-right, non-overlapping occurrences of `sep` cut the string. -/
def splitChars (sep : List Char) : Nat → List Char → List Char → List (List Char)
  | 0, _, acc => [acc.reverse]
  | _ + 1, [], acc => [acc.reverse]
  | fuel + 1, c :: cs, acc =>
    if listStartsWith sep (c :: cs) then
      acc.reverse :: splitChars sep fuel (List.drop sep.length (c :: cs)) []
    else splitChars sep fuel cs (c :: acc)

/-- Python `s.split(sep)`. -/
def pySplit (s sep : String) : List String :=
  (splitChars sep.toList (s.toList.length + 1) s.toList []).map (fun cs => ⟨cs⟩)

/-- The provider-specific continuation-token pattern special-cased in
`_fetch_next`. -/
def planetToken : String := "/planet/search?next="

/-- `PaginatedList._fetch_next`.  Raises `RuntimeError` when the stored next
URL is falsy; otherwise applies the `?next=` continuation-token rewrite (which
mutates `_next_url` and `_data` in place, before the request is issued) and
runs the fetch-and-decode tail.  The triple is
(batch or exception, state left behind, requests issued). -/
def fetchNext {Rec : Type} (cls : J → J → Rec) (t : Transport) (s : PL Rec) :
    Except PyErr (List Rec) × PL Rec × List Request :=
  if !pyTruthy s.nextUrl then
    (.error (.runtimeError "Next url not specified!"), s, [])
  else
    match s.nextUrl with
    | .str u =>
      if strContains u planetToken then
        match pySplit u "?next=" with
        | [base, tok] =>
          let s1 : PL Rec := { s with nextUrl := J.str base }
          match s1.data with
          | .null =>
            fetchNextCore cls t { s1 with data := J.obj [("next", J.str tok)] } base
          | .obj fs =>
            fetchNextCore cls t
              { s1 with data := J.obj (jSetFields fs "next" (J.str tok)) } base
          | _ => (.error .typeError, s1, [])
        | _ => (.error .valueError, s, [])
      else fetchNextCore cls t s u
    | _ => (.error .typeError, s, [])

/-- The while-loop of `PaginatedList.__iter__`: while a next URL is present,
fetch the next page, append its batch to `_elements` and yield the batch.
Returns the records yielded by the loop.  The loop guard is checked before the
fuel gate, so an `.ok` result always means the guard genuinely became false;
running out of fuel is reported as the embedding-only marker
`PyErr.fuelExhausted`. -/
def iterLoop {Rec : Type} (cls : J → J → Rec) (t : Transport) :
    Nat → PL Rec → Except PyErr (List Rec) × PL Rec × List Request
  | fuel, s =>
    if hasNext s then
      match fuel with
      | 0 => (.error .fuelExhausted, s, [])
      | fuel + 1 =>
        match fetchNext cls t s with
        | (.error e, s', reqs) => (.error e, s', reqs)
        | (.ok batch, s', reqs) =>
          let s2 : PL Rec := { s' with elements := s'.elements ++ batch }
          match iterLoop cls t fuel s2 with
          | (res, s3, reqs2) =>
            ((res.map (fun ys => batch ++ ys)), s3, reqs ++ reqs2)
    else (.ok [], s, [])

/-- `PaginatedList.__iter__`, run to exhaustion (fuel-bounded): first yields
everything already realized, then the loop's pages. -/
def pagIter {Rec : Type} (cls : J → J → Rec) (t : Transport) (fuel : Nat)
    (s : PL Rec) : Except PyErr (List Rec) × PL Rec × List Request :=
  match iterLoop cls t fuel s with
  | (res, s', reqs) => ((res.map (fun ys => s.elements ++ ys)), s', reqs)

/-- `PaginatedList._fetch_to_index`: fetch pages while
`len(self._elements) <= index and self._has_next()`.  As in `iterLoop`, an
`.ok` result means the loop guard genuinely became false. -/
def fetchToIndex {Rec : Type} (cls : J → J → Rec) (t : Transport) :
    Nat → Int → PL Rec → Except PyErr Unit × PL Rec × List Request
  | fuel, i, s =>
    if (s.elements.length : Int) ≤ i ∧ hasNext s then
      match fuel with
      | 0 => (.error .fuelExhausted, s, [])
      | fuel + 1 =>
        match fetchNext cls t s with
        | (.error e, s', reqs) => (.error e, s', reqs)
        | (.ok batch, s', reqs) =>
          let s2 : PL Rec := { s' with elements := s'.elements ++ batch }
          match fetchToIndex cls t fuel i s2 with
          | (res, s3, reqs2) => (res, s3, reqs ++ reqs2)
    else (.ok (), s, [])

/-- `PaginatedList.__getitem__` with an integer index: fetch to the index,
then Python-index the realized buffer (`IndexError` when out of range). -/
def getItem {Rec : Type} (cls : J → J → Rec) (t : Transport) (fuel : Nat)
    (i : Int) (s : PL Rec) : Except PyErr Rec × PL Rec × List Request :=
  match fetchToIndex cls t fuel i s with
  | (.error e, s', reqs) => (.error e, s', reqs)
  | (.ok _, s', reqs) =>
    match pyListGet s'.elements i with
    | some r => (.ok r, s', reqs)
    | none => (.error .indexError, s', reqs)

/-- `PaginatedList.get_limited`: page size from the original request body's
`per_page` (defaulting to `PAGINATION_LIMIT`), fetch-to-index when fewer
elements are realized, then return the `[:limit]` slice. -/
def getLimited {Rec : Type} (cls : J → J → Rec) (t : Transport) (fuel : Nat)
    (s : PL Rec) : Except PyErr (List Rec) × PL Rec × List Request :=
  match
    (if pyTruthy s.data then pyDictGetD s.data "per_page" (J.num PAGINATION_LIMIT)
     else .ok (J.num PAGINATION_LIMIT)) with
  | .error e => (.error e, s, [])
  | .ok limJ =>
    match limJ with
    | .num lim =>
      if (s.elements.length : Int) < lim then
        match fetchToIndex cls t fuel lim s with
        | (.error e, s', reqs) => (.error e, s', reqs)
        | (.ok _, s', reqs) => (.ok (pyListTake s'.elements lim), s', reqs)
      else (.ok (pyListTake s.elements lim), s, [])
    | _ => (.error .typeError, s, [])

/-- Lines 48-57 of the `total_count` property: copy the current body and
params, then put `limit = 1` into the body if it is truthy and has a `limit`
key, into the (possibly fresh) params otherwise. -/
def dataParamsLimit1 (data params : J) : Except PyErr (J × J) :=
  match (if pyTruthy data then pyIn "limit" data else .ok false) with
  | .error e => .error e
  | .ok hasLimit =>
    if hasLimit then
      match pySetItem data "limit" (J.num 1) with
      | .error e => .error e
      | .ok d => .ok (d, params)
    else
      let p := if pyIsNone params then J.obj [] else params
      match pySetItem p "limit" (J.num 1) with
      | .error e => .error e
      | .ok p' => .ok (data, p')

/-- The `PaginatedList.total_count` property: when the stored count is falsy,
issue one request against the current next-page descriptor with the limit set
to 1, store and return the envelope's `numMatched` value (a missing field is
logged and stored as unknown); raises `RuntimeError` when the current next URL
is falsy. -/
def totalCountProp {Rec : Type} (t : Transport) (s : PL Rec) :
    Except PyErr J × PL Rec × List Request :=
  if pyTruthy s.totalCount then (.ok s.totalCount, s, [])
  else
    match dataParamsLimit1 s.data s.params with
    | .error e => (.error e, s, [])
    | .ok (data', params') =>
      if !pyTruthy s.nextUrl then
        (.error (.runtimeError "Next url not specified!"), s, [])
      else
        match s.nextUrl with
        | .str u =>
          let req : Request := ⟨s.method, u, s.headers, params', data'⟩
          match t req with
          | .error _ => (.error .transportError, s, [req])
          | .ok (_, resp) =>
            match pyDictGet resp "numMatched" with
            | .error e => (.error e, s, [req])
            | .ok m => (.ok m, { s with totalCount := m }, [req])
        | _ => (.error .typeError, s, [])

/-- `PagedSlice.__init__` normalization: `start or 0`, raw `stop`,
`step or 1` (so a `None` or `0` step becomes `1`). -/
def sliceStart (start : Option Int) : Int :=
  match start with
  | some n => if n = 0 then 0 else n
  | none => 0

/-- `PagedSlice.__init__` normalization of the step (see `sliceStart`). -/
def sliceStep (step : Option Int) : Int :=
  match step with
  | some n => if n = 0 then 1 else n
  | none => 1

/-- The loop guard of `PagedSlice.__iter__`:
`self._stop is not None and index >= self._stop`. -/
def sliceStopHit (stop : Option Int) (idx : Int) : Bool :=
  match stop with
  | some m => m ≤ idx
  | none => false

/-- `PagedSlice.__iter__`, fuel-bounded (`f` is the fuel handed to each
`__getitem__` call on the target list).  Returns the records yielded before
the loop ended, the exception that ended it (if any), the final state of the
target list, and the requests issued.  Python generators yield their prefix
before an exception propagates, so partial yields are kept. -/
def sliceIter {Rec : Type} (cls : J → J → Rec) (t : Transport) (f : Nat) :
    Nat → Int → Option Int → Int → PL Rec →
      List Rec × Option PyErr × PL Rec × List Request
  | fuel, idx, stop, step, s =>
    if sliceStopHit stop idx then ([], none, s, [])
    else if (s.elements.length : Int) > idx ∨ hasNext s then
      match fuel with
      | 0 => ([], some .fuelExhausted, s, [])
      | fuel + 1 =>
        match getItem cls t f idx s with
        | (.error e, s', reqs) => ([], some e, s', reqs)
        | (.ok r, s', reqs) =>
          match sliceIter cls t f fuel (idx + step) stop step s' with
          | (ys, err, s2, reqs2) => (r :: ys, err, s2, reqs ++ reqs2)
    else ([], none, s, [])

/-- `Conformance.TRANSACTION_EXTENSION.value` (`resource_catalog.Conformance`). -/
def TRANSACTION_EXTENSION : String :=
  "https://api.stacspec.org/v1.0.0/ogcapi-features/extensions/transaction"

/-- `utils.join_url` restricted to two segments: raises `ValueError` when the
second segment is absolute, otherwise `posixpath.join`. -/
def join_url (a b : String) : Except PyErr String :=
  if listStartsWith ['/'] b.toList then .error .valueError
  else if a = "" then .ok b
  else if a.toList.getLast? = some '/' then .ok (a ++ b)
  else .ok (a ++ "/" ++ b)

/-- `utils.ConformanceError.__str__`: the message shown for
`ConformanceError(uri)`. -/
def conformanceErrorMessage (uri : String) : String :=
  "API does not conform to " ++ uri

/-- `CatalogService.get_conformance`: GET `{self_href}/conformance` and read
the envelope's `conformsTo` field (empty list when absent). -/
def get_conformance (t : Transport) (selfHref : String) :
    Except PyErr J × List Request :=
  match join_url selfHref "conformance" with
  | .error e => (.error e, [])
  | .ok url =>
    let req : Request := ⟨"GET", url, J.null, J.null, J.null⟩
    match t req with
    | .error _ => (.error .transportError, [req])
    | .ok (_, resp) =>
      match pyDictGetD resp "conformsTo" (J.arr []) with
      | .error e => (.error e, [req])
      | .ok l => (.ok l, [req])

/-- `CatalogService.check_conforms_to`: membership of the URI in the
advertised conformance list. -/
def check_conforms_to (t : Transport) (selfHref uri : String) :
    Except PyErr Bool × List Request :=
  match get_conformance t selfHref with
  | (.error e, reqs) => (.error e, reqs)
  | (.ok l, reqs) =>
    match pyIn uri l with
    | .error e => (.error e, reqs)
    | .ok b => (.ok b, reqs)

/-- Python `x or y` (`pyTruthy`-based selection), as used in the
`argument or self.field` merges of the update methods. -/
def pyOr (x y : J) : J := if pyTruthy x then x else y

/-- `utils.remove_null_items`. -/
def remove_null_items (d : List (String × J)) : List (String × J) :=
  d.filter (fun f => !pyIsNone f.2)

/-- The current projected fields of a `Catalog` record that `Catalog.update`
reads back (`self.id`, `self.description`, `self.title`). -/
structure CatalogFields : Type where
  id : J
  description : J
  title : J

/-- The PUT body built by `Catalog.update`: `x or self.x` merges followed by
`remove_null_items`. -/
def catalogUpdateBody (description title : J) (c : CatalogFields) :
    List (String × J) :=
  remove_null_items
    [("id", c.id),
     ("description", pyOr description c.description),
     ("title", pyOr title c.title)]

/-- The current projected fields of a `Collection` record that
`Collection.update` reads back. -/
structure CollectionFields : Type where
  id : J
  description : J
  extent : J
  title : J
  license : J
  keywords : J
  providers : J
  summaries : J
  assets : J

/-- The PUT body built by `Collection.update`: `x or self.x` merges followed
by `remove_null_items`. -/
def collectionUpdateBody (description extent title license keywords providers
    summaries assets : J) (c : CollectionFields) : List (String × J) :=
  remove_null_items
    [("id", c.id),
     ("description", pyOr description c.description),
     ("extent", pyOr extent c.extent),
     ("title", pyOr title c.title),
     ("license", pyOr license c.license),
     ("keywords", pyOr keywords c.keywords),
     ("providers", pyOr providers c.providers),
     ("summaries", pyOr summaries c.summaries),
     ("assets", pyOr assets c.assets)]

/-- `Collection.update`: conformance gate against the root record (raising
`ConformanceError` naming the missing capability), then one PUT to the
collection's self href with the merged body.  The argument-type assertions of
the source are enforced by this embedding's types; the local `_set_props`
re-projection after the PUT issues no request and is outside the claims, so
the decoded response is returned as-is.  `rootSelfHref` is the self href of
`self.get_root()` (the `CatalogService`). -/
def collectionUpdate (t : Transport) (rootSelfHref selfHref : String)
    (description extent title license keywords providers summaries assets : J)
    (c : CollectionFields) : Except PyErr J × List Request :=
  match check_conforms_to t rootSelfHref TRANSACTION_EXTENSION with
  | (.error e, reqs) => (.error e, reqs)
  | (.ok false, reqs) =>
    (.error (.conformanceError TRANSACTION_EXTENSION), reqs)
  | (.ok true, reqs) =>
    let body := collectionUpdateBody description extent title license keywords
      providers summaries assets c
    let req : Request := ⟨"PUT", selfHref, J.null, J.null, J.obj body⟩
    match t req with
    | .error _ => (.error .transportError, reqs ++ [req])
    | .ok (_, resp) => (.ok resp, reqs ++ [req])

/-- `Catalog.update`: same conformance gate, then one PUT to the catalog's
self href with the merged body. -/
def catalogUpdate (t : Transport) (rootSelfHref selfHref : String)
    (description title : J) (c : CatalogFields) : Except PyErr J × List Request :=
  match check_conforms_to t rootSelfHref TRANSACTION_EXTENSION with
  | (.error e, reqs) => (.error e, reqs)
  | (.ok false, reqs) =>
    (.error (.conformanceError TRANSACTION_EXTENSION), reqs)
  | (.ok true, reqs) =>
    let body := catalogUpdateBody description title c
    let req : Request := ⟨"PUT", selfHref, J.null, J.null, J.obj body⟩
    match t req with
    | .error _ => (.error .transportError, reqs ++ [req])
    | .ok (_, resp) => (.ok resp, reqs ++ [req])

/-- A freshly constructed `PaginatedList` (`__init__`): no realized elements,
next URL = first URL, no count. -/
def freshPL {Rec : Type} (method firstUrl listKey : String)
    (headers params data : J) : PL Rec :=
  ⟨[], method, J.str firstUrl, headers, params, J.null, listKey, data⟩

/-- A well-formed page envelope under the `items` list key: the record array,
an optional `next` link and an optional `context.matched` count. -/
def mkPage (items : List J) (next : Option String) (matched : Option Int) : J :=
  J.obj
    ([("items", J.arr items),
      ("links", J.arr
        (match next with
         | some u => [J.obj [("rel", J.str "next"), ("href", J.str u)]]
         | none => []))] ++
      (match matched with
       | some m => [("context", J.obj [("matched", J.num m)])]
       | none => []))

/-- A server scripted as a URL-to-envelope table; any other request fails. -/
def scenarioTransport (pages : List (String × J)) : Transport := fun req =>
  match pages.find? (fun p => p.1 == req.url) with
  | some p => .ok (J.null, p.2)
  | none => .error ()

/-- A transport whose every request raises. -/
def errTransport : Transport := fun _ => .error ()

/-- The identity record constructor (`Rec = J`), used in concrete scenarios. -/
def idCls : J → J → J := fun _ e => e

/-- `n` distinct numeric records starting at `base`. -/
def jRange (n : Nat) (base : Int) : List J :=
  (List.range n).map (fun i => J.num (base + i))

/-! ### Structural lemmas about the fetch primitives -/

theorem fetchNextCore_elements {Rec : Type} (cls : J → J → Rec) (t : Transport)
    (s : PL Rec) (u : String) :
    ((fetchNextCore cls t s u).2.1).elements = s.elements := by
  unfold fetchNextCore
  dsimp only
  repeat' split
  all_goals rfl

theorem fetchNext_elements {Rec : Type} (cls : J → J → Rec) (t : Transport)
    (s : PL Rec) : ((fetchNext cls t s).2.1).elements = s.elements := by
  unfold fetchNext
  dsimp only
  repeat' split
  all_goals first
    | rfl
    | apply fetchNextCore_elements

theorem iterLoop_not_hasNext {Rec : Type} (cls : J → J → Rec) (t : Transport)
    (fuel : Nat) (s : PL Rec) (h : hasNext s = false) :
    iterLoop cls t fuel s = (.ok [], s, []) := by
  unfold iterLoop
  simp [h]

theorem iterLoop_ok_elements {Rec : Type} (cls : J → J → Rec) (t : Transport) :
    ∀ (fuel : Nat) (s : PL Rec) (ys : List Rec) (s' : PL Rec)
      (reqs : List Request),
      iterLoop cls t fuel s = (.ok ys, s', reqs) →
        s'.elements = s.elements ++ ys := by
  intro fuel
  induction fuel with
  | zero =>
    intro s ys s' reqs h
    unfold iterLoop at h
    split at h
    · simp at h
    · simp only [Prod.mk.injEq, Except.ok.injEq] at h
      obtain ⟨rfl, rfl, rfl⟩ := h
      simp
  | succ n ih =>
    intro s ys s' reqs h
    unfold iterLoop at h
    split at h
    · dsimp only at h
      split at h
      · simp at h
      · rename_i batch sa reqsa hfetch
        set out := iterLoop cls t n { sa with elements := sa.elements ++ batch }
          with hout
        simp only [Prod.mk.injEq] at h
        obtain ⟨h1, h2, h3⟩ := h
        cases hres : out.1 with
        | error e => rw [hres] at h1; simp [Except.map] at h1
        | ok zs =>
          rw [hres] at h1
          simp only [Except.map, Except.ok.injEq] at h1
          have heq : iterLoop cls t n { sa with elements := sa.elements ++ batch }
              = (Except.ok zs, out.2.1, out.2.2) := by
            rw [← hout, ← hres]
          have h4 := ih _ _ _ _ heq
          have he := fetchNext_elements cls t s
          rw [hfetch] at he
          rw [← h2, h4]
          simp only at he
          rw [he, ← h1]
          simp [List.append_assoc]
    · simp only [Prod.mk.injEq, Except.ok.injEq] at h
      obtain ⟨rfl, rfl, rfl⟩ := h
      simp

theorem iterLoop_ok_hasNext {Rec : Type} (cls : J → J → Rec) (t : Transport) :
    ∀ (fuel : Nat) (s : PL Rec) (ys : List Rec) (s' : PL Rec)
      (reqs : List Request),
      iterLoop cls t fuel s = (.ok ys, s', reqs) → hasNext s' = false := by
  intro fuel
  induction fuel with
  | zero =>
    intro s ys s' reqs h
    unfold iterLoop at h
    split at h
    · simp at h
    · rename_i hcond
      simp only [Prod.mk.injEq, Except.ok.injEq] at h
      obtain ⟨rfl, rfl, rfl⟩ := h
      simpa using hcond
  | succ n ih =>
    intro s ys s' reqs h
    unfold iterLoop at h
    split at h
    · dsimp only at h
      split at h
      · simp at h
      · rename_i batch sa reqsa hfetch
        set out := iterLoop cls t n { sa with elements := sa.elements ++ batch }
          with hout
        simp only [Prod.mk.injEq] at h
        obtain ⟨h1, h2, h3⟩ := h
        cases hres : out.1 with
        | error e => rw [hres] at h1; simp [Except.map] at h1
        | ok zs =>
          have heq : iterLoop cls t n { sa with elements := sa.elements ++ batch }
              = (Except.ok zs, out.2.1, out.2.2) := by
            rw [← hout, ← hres]
          have h4 := ih _ _ _ _ heq
          rw [← h2]
          exact h4
    · rename_i hcond
      simp only [Prod.mk.injEq, Except.ok.injEq] at h
      obtain ⟨rfl, rfl, rfl⟩ := h
      simpa using hcond

theorem pagIter_ok_elements {Rec : Type} (cls : J → J → Rec) (t : Transport)
    (fuel : Nat) (s : PL Rec) (ys : List Rec) (s' : PL Rec)
    (reqs : List Request) (h : pagIter cls t fuel s = (.ok ys, s', reqs)) :
    s'.elements = ys ∧ hasNext s' = false := by
  unfold pagIter at h
  dsimp only at h
  set out := iterLoop cls t fuel s with hout
  simp only [Prod.mk.injEq] at h
  obtain ⟨h1, h2, h3⟩ := h
  cases hres : out.1 with
  | error e => rw [hres] at h1; simp [Except.map] at h1
  | ok zs =>
    rw [hres] at h1
    simp only [Except.map, Except.ok.injEq] at h1
    have heq : iterLoop cls t fuel s = (Except.ok zs, out.2.1, out.2.2) := by
      rw [← hout, ← hres]
    have h4 := iterLoop_ok_elements cls t _ _ _ _ _ heq
    have h5 := iterLoop_ok_hasNext cls t _ _ _ _ _ heq
    constructor
    · rw [← h2, h4, ← h1]
    · rw [← h2]; exact h5

theorem pagIter_exhausted {Rec : Type} (cls : J → J → Rec) (t : Transport)
    (fuel : Nat) (s : PL Rec) (h : hasNext s = false) :
    pagIter cls t fuel s = (.ok s.elements, s, []) := by
  unfold pagIter
  rw [iterLoop_not_hasNext cls t fuel s h]
  simp [Except.map]

/-! ### Claim C6 -/

/-- C6: for every `PaginatedList` that has been fully realized (a completed
`iterate()` run left the next descriptor absent), every subsequent call to
`iterate()` — with any fuel, any transport, and any record constructor —
yields exactly the same elements in the same order as the first full
iteration, and issues zero Transport requests. -/
theorem C6_iterate_idempotent_after_exhaustion {Rec : Type}
    (cls cls2 : J → J → Rec) (t t2 : Transport) (fuel fuel2 : Nat)
    (s s' : PL Rec) (ys : List Rec) (reqs : List Request)
    (hrun : pagIter cls t fuel s = (.ok ys, s', reqs)) :
    hasNext s' = false ∧ pagIter cls2 t2 fuel2 s' = (.ok ys, s', []) := by
  obtain ⟨helts, hdone⟩ := pagIter_ok_elements cls t fuel s ys s' reqs hrun
  refine ⟨hdone, ?_⟩
  rw [pagIter_exhausted cls2 t2 fuel2 s' hdone, helts]

/-- Witness for C6: a one-page server; the first full iteration realizes both
records and exhausts the list, after which re-iterating (even against a
transport that always fails) returns the same two records with no request. -/
theorem C6_witness :
    pagIter idCls (scenarioTransport [("u1", mkPage (jRange 2 0) none (some 2))])
        1 (freshPL "GET" "u1" "items" J.null J.null J.null) =
      (.ok [J.num 0, J.num 1],
        ⟨[J.num 0, J.num 1], "GET", J.null, J.null, J.null, J.num 2, "items",
          J.null⟩,
        [⟨"GET", "u1", J.null, J.null, J.null⟩]) ∧
    (hasNext
        (⟨[J.num 0, J.num 1], "GET", J.null, J.null, J.null, J.num 2, "items",
          J.null⟩ : PL J) = false ∧
      pagIter idCls errTransport 5
          ⟨[J.num 0, J.num 1], "GET", J.null, J.null, J.null, J.num 2, "items",
            J.null⟩ =
        (.ok [J.num 0, J.num 1],
          ⟨[J.num 0, J.num 1], "GET", J.null, J.null, J.null, J.num 2, "items",
            J.null⟩,
          [])) :=
  ⟨rfl,
    C6_iterate_idempotent_after_exhaustion idCls idCls
      (scenarioTransport [("u1", mkPage (jRange 2 0) none (some 2))])
      errTransport 1 5 (freshPL "GET" "u1" "items" J.null J.null J.null)
      ⟨[J.num 0, J.num 1], "GET", J.null, J.null, J.null, J.num 2, "items",
        J.null⟩
      [J.num 0, J.num 1] [⟨"GET", "u1", J.null, J.null, J.null⟩] rfl⟩

/-! ### Claim C9 -/

theorem fetchToIndex_neg {Rec : Type} (cls : J → J → Rec) (t : Transport)
    (fuel : Nat) (i : Int) (s : PL Rec) (h : i < 0) :
    fetchToIndex cls t fuel i s = (.ok (), s, []) := by
  unfold fetchToIndex
  rw [if_neg]
  rintro ⟨h1, -⟩
  have h0 : (0 : Int) ≤ (s.elements.length : Int) := by positivity
  omega

theorem pyListGet_nil {α : Type} (i : Int) : pyListGet ([] : List α) i = none := by
  unfold pyListGet
  dsimp only
  split <;> simp

theorem pyListGet_neg_one {α : Type} (xs : List α) :
    pyListGet xs (-1) = xs.getLast? := by
  unfold pyListGet
  cases xs with
  | nil => simp
  | cons a l =>
    have hlen : ((-1 : Int) < 0) = True := by simp
    simp only [hlen, if_true, List.length_cons]
    have h0 : (0 : Int) ≤ -1 + ((l.length : Int) + 1) := by omega
    rw [if_pos (by push_cast; omega)]
    have ht : ((-1 : Int) + ((l.length + 1 : Nat) : Int)).toNat = l.length := by
      push_cast
      omega
    rw [ht, List.get?_eq_getElem?, List.getLast?_eq_getElem?]
    simp

/-- C9: for every `PaginatedList` and every negative integer index `i`,
`__getitem__` issues zero Transport requests and leaves the state unchanged
(the fetch-to-index loop guard can never hold for a negative index), and it
addresses the realized buffer from its end: the result is Python indexing of
the realized records, `seq[-1]` is the last already-fetched record, and the
access raises `IndexError` when nothing has been realized yet. -/
theorem C9_negative_index_no_fetch {Rec : Type} (cls : J → J → Rec)
    (t : Transport) (fuel : Nat) (i : Int) (s : PL Rec) (h : i < 0) :
    getItem cls t fuel i s =
      ((match pyListGet s.elements i with
        | some r => Except.ok r
        | none => Except.error PyErr.indexError), s, []) ∧
    (i = -1 → getItem cls t fuel i s =
      ((match s.elements.getLast? with
        | some r => Except.ok r
        | none => Except.error PyErr.indexError), s, [])) ∧
    (s.elements = [] → getItem cls t fuel i s = (.error .indexError, s, [])) := by
  have hbase : getItem cls t fuel i s =
      ((match pyListGet s.elements i with
        | some r => Except.ok r
        | none => Except.error PyErr.indexError), s, []) := by
    unfold getItem
    rw [fetchToIndex_neg cls t fuel i s h]
    cases hg : pyListGet s.elements i <;> simp [hg]
  refine ⟨hbase, ?_, ?_⟩
  · rintro rfl
    rw [hbase, pyListGet_neg_one]
  · intro hempty
    rw [hbase, hempty, pyListGet_nil]

/-- Witness for C9: a sequence with two realized records and a pending next
page, indexed at `-1` against a transport that would fail if consulted:
the access fetches nothing and returns the last realized record; all three
conjuncts are exercised (the third on a fresh, empty sequence). -/
theorem C9_witness :
    getItem idCls errTransport 7 (-1)
        ⟨[J.num 0, J.num 1], "GET", J.str "u2", J.null, J.null, J.null, "items",
          J.null⟩ =
      (.ok (J.num 1),
        ⟨[J.num 0, J.num 1], "GET", J.str "u2", J.null, J.null, J.null, "items",
          J.null⟩, []) ∧
    getItem idCls errTransport 7 (-1)
        (freshPL "GET" "u1" "items" J.null J.null J.null) =
      (.error .indexError, freshPL "GET" "u1" "items" J.null J.null J.null, []) := by
  constructor
  · have h2 := (C9_negative_index_no_fetch idCls errTransport 7 (-1)
      ⟨[J.num 0, J.num 1], "GET", J.str "u2", J.null, J.null, J.null, "items",
        J.null⟩ (by decide)).2.1 rfl
    rw [h2]
    rfl
  · have h3 := (C9_negative_index_no_fetch idCls errTransport 7 (-1)
      (freshPL "GET" "u1" "items" J.null J.null J.null) (by decide)).2.2 rfl
    rw [h3]

/-! ### Claim C10 -/

/-- C10: in `Catalog.update` and `Collection.update`, a caller-supplied
argument that is falsy but not `None` (such as the empty string for
`description` or `title`) is replaced by the record's current field value by
the `x or self.x` merge, so the PUT body it produces is identical to the one
produced when the argument is omitted (`None`): these operations cannot clear
a field to an empty value. -/
theorem C10_falsy_update_args_cannot_clear (v : J) (hnn : pyIsNone v = false)
    (hv : pyTruthy v = false) :
    (∀ y : J, pyOr v y = y) ∧
    (∀ (title : J) (c : CatalogFields),
      catalogUpdateBody v title c = catalogUpdateBody J.null title c) ∧
    (∀ (description : J) (c : CatalogFields),
      catalogUpdateBody description v c = catalogUpdateBody description J.null c) ∧
    (∀ (extent title license keywords providers summaries assets : J)
        (c : CollectionFields),
      collectionUpdateBody v extent title license keywords providers summaries
          assets c =
        collectionUpdateBody J.null extent title license keywords providers
          summaries assets c) ∧
    (∀ (description extent license keywords providers summaries assets : J)
        (c : CollectionFields),
      collectionUpdateBody description extent v license keywords providers
          summaries assets c =
        collectionUpdateBody description extent J.null license keywords
          providers summaries assets c) := by
  have hor : ∀ y : J, pyOr v y = y := by
    intro y
    unfold pyOr
    rw [hv]
    rfl
  refine ⟨hor, ?_, ?_, ?_, ?_⟩ <;>
    intros <;>
    simp only [catalogUpdateBody, collectionUpdateBody, hor] <;>
    simp [pyOr, pyTruthy]

/-- Witness for C10: the empty string is falsy and not `None`; updating a
catalog whose current description is `"old"` with `description = ""` builds
the same PUT body as not passing a description at all — the body still carries
`"old"`. -/
theorem C10_witness :
    pyIsNone (J.str "") = false ∧ pyTruthy (J.str "") = false ∧
    catalogUpdateBody (J.str "") J.null
        ⟨J.str "cat", J.str "old", J.null⟩ =
      catalogUpdateBody J.null J.null ⟨J.str "cat", J.str "old", J.null⟩ ∧
    catalogUpdateBody (J.str "") J.null ⟨J.str "cat", J.str "old", J.null⟩ =
      [("id", J.str "cat"), ("description", J.str "old")] :=
  ⟨rfl, rfl,
    (C10_falsy_update_args_cannot_clear (J.str "") rfl rfl).2.1 J.null
      ⟨J.str "cat", J.str "old", J.null⟩,
    rfl⟩

/-! ### Claim C8 -/

/-- C8: a conformance-gated mutating operation (`Collection.update`, and
likewise `Catalog.update`), issued when the root record's advertised
conformance list does not contain the required capability URI, raises a
`ConformanceError` carrying that capability URI — whose user-visible message
names the URI — and the only request ever sent is the GET that read the
conformance list: no PUT/POST/DELETE is issued. -/
theorem C8_conformance_gate_blocks_mutation (t : Transport)
    (rootHref selfHref : String)
    (description extent title license keywords providers summaries assets : J)
    (c : CollectionFields) (cd ct : J) (cc : CatalogFields)
    (confUrl : String) (hdr resp advertised : J)
    (hjoin : join_url rootHref "conformance" = .ok confUrl)
    (ht : t ⟨"GET", confUrl, J.null, J.null, J.null⟩ = .ok (hdr, resp))
    (hconf : pyDictGetD resp "conformsTo" (J.arr []) = .ok advertised)
    (hnot : pyIn TRANSACTION_EXTENSION advertised = .ok false) :
    collectionUpdate t rootHref selfHref description extent title license
        keywords providers summaries assets c =
      (.error (.conformanceError TRANSACTION_EXTENSION),
        [⟨"GET", confUrl, J.null, J.null, J.null⟩]) ∧
    catalogUpdate t rootHref selfHref cd ct cc =
      (.error (.conformanceError TRANSACTION_EXTENSION),
        [⟨"GET", confUrl, J.null, J.null, J.null⟩]) ∧
    (∀ r : Request, r ∈ [(⟨"GET", confUrl, J.null, J.null, J.null⟩ : Request)] →
      r.method = "GET") ∧
    (∃ pre, conformanceErrorMessage TRANSACTION_EXTENSION =
      pre ++ TRANSACTION_EXTENSION) := by
  have hcheck : check_conforms_to t rootHref TRANSACTION_EXTENSION =
      (.ok false, [⟨"GET", confUrl, J.null, J.null, J.null⟩]) := by
    unfold check_conforms_to get_conformance
    rw [hjoin]
    dsimp only
    rw [ht]
    dsimp only
    rw [hconf]
    dsimp only
    rw [hnot]
  refine ⟨?_, ?_, ?_, ⟨"API does not conform to ", rfl⟩⟩
  · unfold collectionUpdate
    rw [hcheck]
  · unfold catalogUpdate
    rw [hcheck]
  · intro r hr
    simp at hr
    rw [hr]

/-- Witness for C8: a server advertising only an unrelated capability; the
collection and catalog updates raise the conformance error after the single
GET of the conformance list. -/
theorem C8_witness :
    (join_url "https://api" "conformance" = .ok "https://api/conformance" ∧
      scenarioTransport
          [("https://api/conformance",
            J.obj [("conformsTo", J.arr [J.str "https://other/capability"])])]
          ⟨"GET", "https://api/conformance", J.null, J.null, J.null⟩ =
        .ok (J.null,
          J.obj [("conformsTo", J.arr [J.str "https://other/capability"])]) ∧
      pyIn TRANSACTION_EXTENSION (J.arr [J.str "https://other/capability"]) =
        .ok false) ∧
    collectionUpdate
        (scenarioTransport
          [("https://api/conformance",
            J.obj [("conformsTo", J.arr [J.str "https://other/capability"])])])
        "https://api" "https://api/col" J.null J.null J.null J.null J.null
        J.null J.null J.null
        ⟨J.str "col", J.null, J.null, J.null, J.null, J.null, J.null, J.null,
          J.null⟩ =
      (.error (.conformanceError TRANSACTION_EXTENSION),
        [⟨"GET", "https://api/conformance", J.null, J.null, J.null⟩]) :=
  ⟨⟨rfl, rfl, rfl⟩,
    (C8_conformance_gate_blocks_mutation
      (scenarioTransport
        [("https://api/conformance",
          J.obj [("conformsTo", J.arr [J.str "https://other/capability"])])])
      "https://api" "https://api/col" J.null J.null J.null J.null J.null J.null
      J.null J.null
      ⟨J.str "col", J.null, J.null, J.null, J.null, J.null, J.null, J.null,
        J.null⟩
      J.null J.null ⟨J.str "cat", J.null, J.null⟩
      "https://api/conformance" J.null
      (J.obj [("conformsTo", J.arr [J.str "https://other/capability"])])
      (J.arr [J.str "https://other/capability"])
      rfl rfl rfl rfl).1⟩

/-! ### Claim C2 -/

/-- Counterexample to C2 as stated: a `PaginatedList` reached by exhausting a
one-page server that never reported a count.  Its total count is unknown, yet
reading `total_count` issues no request at all and raises `RuntimeError`
(because the *current* next URL — not the original first-page URL — is gone),
contradicting "issues exactly one dedicated request ... without raising any
error". -/
theorem C2_counterexample :
    (pagIter idCls (scenarioTransport [("u1", mkPage (jRange 3 0) none none)]) 1
        (freshPL "GET" "u1" "items" J.null J.null J.null)).2.1 =
      ⟨[J.num 0, J.num 1, J.num 2], "GET", J.null, J.null, J.null, J.null,
        "items", J.null⟩ ∧
    totalCountProp errTransport
        (⟨[J.num 0, J.num 1, J.num 2], "GET", J.null, J.null, J.null, J.null,
          "items", J.null⟩ : PL J) =
      (.error (.runtimeError "Next url not specified!"),
        ⟨[J.num 0, J.num 1, J.num 2], "GET", J.null, J.null, J.null, J.null,
          "items", J.null⟩, []) :=
  ⟨rfl, rfl⟩

/-- C2 (amended): for every `PaginatedList` whose total count is not already
known (falsy), reading `total_count` first builds the limit-1 descriptor
(body `limit` set to 1 when the body has one, otherwise params `limit` set
to 1); then, *if the current next URL is absent, it raises `RuntimeError`
with no request*; otherwise it issues exactly one request built from the
*current* next-page descriptor, stores and returns the envelope's top-level
`numMatched` value, and when that field is absent the count is left unknown
(`None`) without raising (a warning is logged). -/
theorem C2_total_count_unknown_amended {Rec : Type} (t : Transport)
    (s : PL Rec) (d p : J) (hunknown : pyTruthy s.totalCount = false)
    (hdp : dataParamsLimit1 s.data s.params = .ok (d, p)) :
    (pyTruthy s.nextUrl = false →
      totalCountProp t s =
        (.error (.runtimeError "Next url not specified!"), s, [])) ∧
    (∀ (u : String) (hdr : J) (fs : List (String × J)),
      s.nextUrl = J.str u → u ≠ "" →
      t ⟨s.method, u, s.headers, p, d⟩ = .ok (hdr, J.obj fs) →
      totalCountProp t s =
        (.ok (pyGet (J.obj fs) "numMatched"),
          { s with totalCount := pyGet (J.obj fs) "numMatched" },
          [⟨s.method, u, s.headers, p, d⟩])) := by
  constructor
  · intro hnone
    unfold totalCountProp
    rw [hunknown, hdp]
    simp [hnone]
  · intro u hdr fs hu hne ht
    unfold totalCountProp
    rw [hunknown, hdp]
    dsimp only
    rw [hu]
    have htr : pyTruthy (J.str u) = true := by
      simp [pyTruthy, hne]
    simp only [htr, Bool.not_true, Bool.false_eq_true, if_false]
    rw [ht]
    rfl

/-- Witness for C2 (amended): a list with unknown count and a live next URL;
the server's envelope has no `numMatched`, so the property issues exactly one
request (with `limit = 1` folded into the params) and returns `None` without
raising. -/
theorem C2_witness :
    (pyTruthy J.null = false ∧
      dataParamsLimit1 J.null J.null = .ok (J.null, J.obj [("limit", J.num 1)]) ∧
      scenarioTransport [("u1", J.obj [("stuff", J.num 7)])]
          ⟨"GET", "u1", J.null, J.obj [("limit", J.num 1)], J.null⟩ =
        .ok (J.null, J.obj [("stuff", J.num 7)])) ∧
    totalCountProp (scenarioTransport [("u1", J.obj [("stuff", J.num 7)])])
        (freshPL "GET" "u1" "items" J.null J.null J.null : PL J) =
      (.ok J.null,
        ⟨[], "GET", J.str "u1", J.null, J.null, J.null, "items", J.null⟩,
        [⟨"GET", "u1", J.null, J.obj [("limit", J.num 1)], J.null⟩]) := by
  refine ⟨⟨rfl, rfl, rfl⟩, ?_⟩
  have h := (C2_total_count_unknown_amended
    (scenarioTransport [("u1", J.obj [("stuff", J.num 7)])])
    (freshPL "GET" "u1" "items" J.null J.null J.null : PL J)
    J.null (J.obj [("limit", J.num 1)]) rfl rfl).2
    "u1" J.null [("stuff", J.num 7)] rfl (by decide) rfl
  rw [h]
  rfl

/-! ### Claim C3 -/

/-- Counterexample to C3 as stated: a `PaginatedList` that already holds the
count 42 fetches a page whose envelope carries no `context.matched`; the
stored total count is overwritten with `None` — the earlier count is
discarded, contradicting "the count is only updated when the envelope
actually contains one". -/
theorem C3_counterexample :
    (⟨[], "GET", J.str "u1", J.null, J.null, J.num 42, "items",
        J.null⟩ : PL J).totalCount = J.num 42 ∧
    (fetchNext idCls (scenarioTransport [("u1", mkPage (jRange 1 0) none none)])
        ⟨[], "GET", J.str "u1", J.null, J.null, J.num 42, "items",
          J.null⟩).2.1.totalCount = J.null :=
  ⟨rfl, rfl⟩

/-- C3 (amended): every successful page fetch *unconditionally* overwrites the
sequence's stored total count with the envelope's `context.matched` value —
which is `None` when the envelope has no such field — so a count captured from
an earlier page (or from the count query) survives a later page fetch only
when the new envelope also carries one. -/
theorem C3_fetch_overwrites_count_amended {Rec : Type} (cls : J → J → Rec)
    (t : Transport) (s : PL Rec) (u : String) (hdr m : J)
    (fs : List (String × J)) (ll : List J) (nl : J)
    (hu : s.nextUrl = J.str u) (hne : u ≠ "")
    (hpl : strContains u planetToken = false)
    (ht : t ⟨s.method, u, s.headers, s.params, s.data⟩ = .ok (hdr, J.obj fs))
    (hiter : pyIter (pyGetD (J.obj fs) "links" (J.obj [])) = .ok ll)
    (hfind : findNextLink ll = .ok nl)
    (hctx : pyDictGet (pyGetD (J.obj fs) "context" (J.obj [])) "matched" =
      .ok m) :
    ((fetchNext cls t s).2.1).totalCount = m := by
  unfold fetchNext
  rw [hu]
  have htr : (!pyTruthy (J.str u)) = false := by simp [pyTruthy, hne]
  simp only [htr, Bool.false_eq_true, if_false]
  rw [hpl]
  simp only [Bool.false_eq_true, if_false]
  unfold fetchNextCore
  dsimp only
  rw [ht]
  dsimp only [pyDictGetD]
  rw [hiter]
  dsimp only
  rw [hfind]
  dsimp only
  rw [hctx]
  dsimp only
  split
  · rfl
  · split
    · rfl
    · split
      · rfl
      · rfl

/-- Witness for C3 (amended): a list holding count 25 fetches a page with two
records, a next link and no `context` field; the stored count becomes `None`. -/
theorem C3_witness :
    ((⟨[], "GET", J.str "u1", J.null, J.null, J.num 25, "items",
        J.null⟩ : PL J).nextUrl = J.str "u1" ∧
      strContains "u1" planetToken = false ∧
      scenarioTransport [("u1", mkPage (jRange 2 0) (some "u2") none)]
          ⟨"GET", "u1", J.null, J.null, J.null⟩ =
        .ok (J.null, mkPage (jRange 2 0) (some "u2") none)) ∧
    ((fetchNext idCls
        (scenarioTransport [("u1", mkPage (jRange 2 0) (some "u2") none)])
        ⟨[], "GET", J.str "u1", J.null, J.null, J.num 25, "items",
          J.null⟩).2.1).totalCount = J.null := by
  refine ⟨⟨rfl, rfl, rfl⟩, ?_⟩
  exact C3_fetch_overwrites_count_amended idCls
    (scenarioTransport [("u1", mkPage (jRange 2 0) (some "u2") none)])
    ⟨[], "GET", J.str "u1", J.null, J.null, J.num 25, "items", J.null⟩
    "u1" J.null J.null _
    [J.obj [("rel", J.str "next"), ("href", J.str "u2")]]
    (J.obj [("rel", J.str "next"), ("href", J.str "u2")])
    rfl (by decide) rfl rfl rfl rfl rfl

/-! ### Claim C4 -/

/-- Counterexample to C4 as stated: when the next URL embeds the provider
continuation token (`/planet/search?next=`), the rewrite that moves the token
from the URL into the request body happens *before* the request is issued, so
a transport error still leaves the next descriptor changed (URL stripped,
token folded into the body) — not "unchanged" as claimed. -/
theorem C4_counterexample :
    fetchNext idCls errTransport
        (⟨[], "POST", J.str "https://x/planet/search?next=tok", J.null, J.null,
          J.null, "features", J.null⟩ : PL J) =
      (.error .transportError,
        ⟨[], "POST", J.str "https://x/planet/search", J.null, J.null, J.null,
          "features", J.obj [("next", J.str "tok")]⟩,
        [⟨"POST", "https://x/planet/search", J.null, J.null,
          J.obj [("next", J.str "tok")]⟩]) ∧
    "https://x/planet/search" ≠ "https://x/planet/search?next=tok" :=
  ⟨rfl, by decide⟩

/-- C4 (amended): for every `PaginatedList` whose next URL does not embed the
planet continuation token, a Transport error during fetch-next leaves the
whole state — elements, next URL and request body — unchanged, and exactly the
one failed request was issued; the sequence can therefore be resumed, and a
retry will issue the identical request.  (When the URL does embed the token,
the descriptor is first rewritten in place — see the counterexample — though
the rewritten descriptor still describes the same request.) -/
theorem C4_transport_error_state_unchanged {Rec : Type} (cls : J → J → Rec)
    (t : Transport) (s : PL Rec) (u : String) (e : Unit)
    (hu : s.nextUrl = J.str u) (hne : u ≠ "")
    (hpl : strContains u planetToken = false)
    (ht : t ⟨s.method, u, s.headers, s.params, s.data⟩ = .error e) :
    fetchNext cls t s =
      (.error .transportError, s,
        [⟨s.method, u, s.headers, s.params, s.data⟩]) := by
  unfold fetchNext
  rw [hu]
  have htr : (!pyTruthy (J.str u)) = false := by simp [pyTruthy, hne]
  simp only [htr, Bool.false_eq_true, if_false]
  rw [hpl]
  simp only [Bool.false_eq_true, if_false]
  unfold fetchNextCore
  dsimp only
  rw [ht]

/-- Witness for C4 (amended): a live list pointed at an ordinary URL, fetched
through a transport that always fails: the error is reported, the state is
untouched and exactly one request was attempted. -/
theorem C4_witness :
    ((⟨[J.num 9], "GET", J.str "u2", J.null, J.null, J.num 25, "items",
        J.null⟩ : PL J).nextUrl = J.str "u2" ∧
      strContains "u2" planetToken = false ∧
      errTransport ⟨"GET", "u2", J.null, J.null, J.null⟩ = .error ()) ∧
    fetchNext idCls errTransport
        (⟨[J.num 9], "GET", J.str "u2", J.null, J.null, J.num 25, "items",
          J.null⟩ : PL J) =
      (.error .transportError,
        ⟨[J.num 9], "GET", J.str "u2", J.null, J.null, J.num 25, "items",
          J.null⟩,
        [⟨"GET", "u2", J.null, J.null, J.null⟩]) :=
  ⟨⟨rfl, rfl, rfl⟩,
    C4_transport_error_state_unchanged idCls errTransport
      ⟨[J.num 9], "GET", J.str "u2", J.null, J.null, J.num 25, "items", J.null⟩
      "u2" () rfl (by decide) rfl rfl⟩

/-! ### Scenario machinery: fetching one well-formed page -/

theorem fetchNext_mkPage {Rec : Type} (cls : J → J → Rec) (t : Transport)
    (s : PL Rec) (u : String) (items : List J) (next : Option String)
    (matched : Option Int) (hdr : J)
    (hu : s.nextUrl = J.str u) (hne : u ≠ "")
    (hpl : strContains u planetToken = false)
    (hlk : s.listKey = "items")
    (ht : t ⟨s.method, u, s.headers, s.params, s.data⟩ =
      .ok (hdr, mkPage items next matched))
    (hitems : ∀ x ∈ items, pyIsNone x = false) :
    fetchNext cls t s =
      (.ok (items.map (cls hdr)),
        { s with
            nextUrl := (match next with | some v => J.str v | none => J.null),
            data := J.null,
            totalCount :=
              (match matched with | some m => J.num m | none => J.null) },
        [⟨s.method, u, s.headers, s.params, s.data⟩]) := by
  have hfil : items.filter (fun e => !pyIsNone e) = items :=
    List.filter_eq_self.mpr (fun a ha => by rw [hitems a ha]; rfl)
  unfold fetchNext
  rw [hu]
  have htr : (!pyTruthy (J.str u)) = false := by simp [pyTruthy, hne]
  simp only [htr, Bool.false_eq_true, if_false]
  rw [hpl]
  simp only [Bool.false_eq_true, if_false]
  unfold fetchNextCore
  dsimp only
  simp only [ht]
  rw [hlk]
  cases next <;> cases matched <;>
    simp [mkPage, pyDictGetD, pyDictGet, pyGetD, pyGet, jGet, pyIter,
      findNextLink, pyEqStr, pyIn, pyTruthy, hfil, List.find?]

theorem iterLoop_step {Rec : Type} (cls : J → J → Rec) (t : Transport)
    (fuel : Nat) (s : PL Rec) (batch : List Rec) (s' : PL Rec)
    (reqs : List Request) (hn : hasNext s = true)
    (hf : fetchNext cls t s = (.ok batch, s', reqs)) :
    iterLoop cls t (fuel + 1) s =
      ((iterLoop cls t fuel { s' with elements := s'.elements ++ batch }).1.map
          (fun ws => batch ++ ws),
        (iterLoop cls t fuel { s' with elements := s'.elements ++ batch }).2.1,
        reqs ++
          (iterLoop cls t fuel { s' with elements := s'.elements ++ batch }).2.2) := by
  conv_lhs => rw [iterLoop]
  simp only [hn, if_true]
  simp only [hf]

/-! ### Claim C5 -/

/-- C5: a `PaginatedList` over three successive pages of 5 records each, the
first two carrying `next` links and the third none: exhausting `iterate()`
from a fresh sequence yields exactly the 15 records in server page order
(page 1's records, then page 2's, then page 3's) via exactly 3 Transport
requests, one per page. -/
theorem C5_three_pages_in_order {Rec : Type} (cls : J → J → Rec)
    (xs ys zs : List J) (fuel : Nat)
    (hx : xs.length = 5) (hy : ys.length = 5) (hz : zs.length = 5)
    (hxn : ∀ x ∈ xs, pyIsNone x = false) (hyn : ∀ x ∈ ys, pyIsNone x = false)
    (hzn : ∀ x ∈ zs, pyIsNone x = false) (hfuel : 3 ≤ fuel) :
    pagIter cls
        (scenarioTransport
          [("u1", mkPage xs (some "u2") none),
            ("u2", mkPage ys (some "u3") none),
            ("u3", mkPage zs none none)])
        fuel (freshPL "GET" "u1" "items" J.null J.null J.null) =
      (.ok (xs.map (cls J.null) ++ (ys.map (cls J.null) ++ zs.map (cls J.null))),
        ⟨xs.map (cls J.null) ++ (ys.map (cls J.null) ++ zs.map (cls J.null)),
          "GET", J.null, J.null, J.null, J.null, "items", J.null⟩,
        [⟨"GET", "u1", J.null, J.null, J.null⟩,
          ⟨"GET", "u2", J.null, J.null, J.null⟩,
          ⟨"GET", "u3", J.null, J.null, J.null⟩]) ∧
    (xs.map (cls J.null) ++ (ys.map (cls J.null) ++ zs.map (cls J.null))).length
      = 15 := by
  set t := scenarioTransport
    [("u1", mkPage xs (some "u2") none),
      ("u2", mkPage ys (some "u3") none),
      ("u3", mkPage zs none none)] with hts
  obtain ⟨f, rfl⟩ : ∃ f, fuel = f + 3 := ⟨fuel - 3, by omega⟩
  have ht1 : t ⟨"GET", "u1", J.null, J.null, J.null⟩ =
      .ok (J.null, mkPage xs (some "u2") none) := by
    rw [hts]; rfl
  have ht2 : t ⟨"GET", "u2", J.null, J.null, J.null⟩ =
      .ok (J.null, mkPage ys (some "u3") none) := by
    rw [hts]; rfl
  have ht3 : t ⟨"GET", "u3", J.null, J.null, J.null⟩ =
      .ok (J.null, mkPage zs none none) := by
    rw [hts]; rfl
  have hstep1 := fetchNext_mkPage cls t
    (freshPL "GET" "u1" "items" J.null J.null J.null) "u1" xs (some "u2") none
    J.null rfl (by decide) (by decide) rfl ht1 hxn
  have hstep2 := fetchNext_mkPage cls t
    (⟨xs.map (cls J.null), "GET", J.str "u2", J.null, J.null, J.null, "items",
      J.null⟩ : PL Rec) "u2" ys (some "u3") none
    J.null rfl (by decide) (by decide) rfl ht2 hyn
  have hstep3 := fetchNext_mkPage cls t
    (⟨xs.map (cls J.null) ++ ys.map (cls J.null), "GET", J.str "u3", J.null,
      J.null, J.null, "items", J.null⟩ : PL Rec) "u3" zs none none
    J.null rfl (by decide) (by decide) rfl ht3 hzn
  have hrw1 := iterLoop_step cls t (f + 2)
    (freshPL "GET" "u1" "items" J.null J.null J.null) (xs.map (cls J.null))
    _ _ rfl hstep1
  have hrw2 := iterLoop_step cls t (f + 1)
    (⟨xs.map (cls J.null), "GET", J.str "u2", J.null, J.null, J.null, "items",
      J.null⟩ : PL Rec) (ys.map (cls J.null)) _ _ rfl hstep2
  have hrw3 := iterLoop_step cls t f
    (⟨xs.map (cls J.null) ++ ys.map (cls J.null), "GET", J.str "u3", J.null,
      J.null, J.null, "items", J.null⟩ : PL Rec) (zs.map (cls J.null)) _ _ rfl
    hstep3
  have hend : iterLoop cls t f
      (⟨(xs.map (cls J.null) ++ ys.map (cls J.null)) ++ zs.map (cls J.null),
        "GET", J.null, J.null, J.null, J.null, "items", J.null⟩ : PL Rec) =
      (.ok [], _, []) :=
    iterLoop_not_hasNext cls t f _ rfl
  constructor
  · unfold pagIter
    rw [show (f + 3 = (f + 2) + 1) by omega]
    rw [hrw1]
    dsimp only [freshPL]
    simp only [List.nil_append]
    rw [show ((f + 1) + 1 = f + 2) by omega] at hrw2
    rw [hrw2]
    dsimp only
    rw [hrw3]
    dsimp only
    rw [hend]
    simp [Except.map]
  · simp [hx, hy, hz]

/-- Witness for C5: the three-page scenario with records 0–4, 5–9, 10–14 and
fuel 3: all 15 records come back in order through exactly 3 requests. -/
theorem C5_witness :
    ((jRange 5 0).length = 5 ∧ (jRange 5 5).length = 5 ∧
      (jRange 5 10).length = 5 ∧ (∀ x ∈ jRange 5 0, pyIsNone x = false) ∧
      (∀ x ∈ jRange 5 5, pyIsNone x = false) ∧
      (∀ x ∈ jRange 5 10, pyIsNone x = false) ∧ 3 ≤ 3) ∧
    pagIter idCls
        (scenarioTransport
          [("u1", mkPage (jRange 5 0) (some "u2") none),
            ("u2", mkPage (jRange 5 5) (some "u3") none),
            ("u3", mkPage (jRange 5 10) none none)])
        3 (freshPL "GET" "u1" "items" J.null J.null J.null) =
      (.ok ((jRange 5 0).map (idCls J.null) ++
          ((jRange 5 5).map (idCls J.null) ++ (jRange 5 10).map (idCls J.null))),
        ⟨(jRange 5 0).map (idCls J.null) ++
            ((jRange 5 5).map (idCls J.null) ++
              (jRange 5 10).map (idCls J.null)),
          "GET", J.null, J.null, J.null, J.null, "items", J.null⟩,
        [⟨"GET", "u1", J.null, J.null, J.null⟩,
          ⟨"GET", "u2", J.null, J.null, J.null⟩,
          ⟨"GET", "u3", J.null, J.null, J.null⟩]) :=
  ⟨⟨rfl, rfl, rfl, by decide, by decide, by decide, le_refl 3⟩,
    (C5_three_pages_in_order idCls (jRange 5 0) (jRange 5 5) (jRange 5 10) 3
      rfl rfl rfl (by decide) (by decide) (by decide) (le_refl 3)).1⟩

theorem fetchToIndex_done {Rec : Type} (cls : J → J → Rec) (t : Transport)
    (fuel : Nat) (i : Int) (s : PL Rec)
    (h : ¬((s.elements.length : Int) ≤ i ∧ hasNext s)) :
    fetchToIndex cls t fuel i s = (.ok (), s, []) := by
  unfold fetchToIndex
  rw [if_neg h]

theorem fetchToIndex_step {Rec : Type} (cls : J → J → Rec) (t : Transport)
    (fuel : Nat) (i : Int) (s : PL Rec) (batch : List Rec) (s' : PL Rec)
    (reqs : List Request)
    (hcond : (s.elements.length : Int) ≤ i ∧ hasNext s)
    (hf : fetchNext cls t s = (.ok batch, s', reqs)) :
    fetchToIndex cls t (fuel + 1) i s =
      ((fetchToIndex cls t fuel i { s' with elements := s'.elements ++ batch }).1,
        (fetchToIndex cls t fuel i
          { s' with elements := s'.elements ++ batch }).2.1,
        reqs ++
          (fetchToIndex cls t fuel i
            { s' with elements := s'.elements ++ batch }).2.2) := by
  conv_lhs => rw [fetchToIndex]
  rw [if_pos hcond]
  simp only [hf]

/-! ### Claim C1 -/

/-- Counterexample to C1 as stated: a fresh `PaginatedList` whose first page
holds exactly 10 records plus a `next` link and `context.matched = 25`.
`get_limited()` (default limit 10) does return exactly the first 10 records,
but it performs **2** Transport requests, not 1: `_fetch_to_index(10)` loops
while `len(self._elements) <= 10`, which still holds after the first page of
10, so the second page is fetched and then discarded by the `[:10]` slice. -/
theorem C1_counterexample :
    (getLimited idCls
        (scenarioTransport
          [("u1", mkPage (jRange 10 0) (some "u2") (some 25)),
            ("u2", mkPage (jRange 3 100) none none)])
        5 (freshPL "GET" "u1" "items" J.null J.null J.null)).2.2.length = 2 ∧
    (getLimited idCls
        (scenarioTransport
          [("u1", mkPage (jRange 10 0) (some "u2") (some 25)),
            ("u2", mkPage (jRange 3 100) none none)])
        5 (freshPL "GET" "u1" "items" J.null J.null J.null)).1 =
      .ok ((jRange 10 0).map (idCls J.null)) :=
  ⟨rfl, rfl⟩

/-- C1 (amended): for a fresh `PaginatedList` whose first page response
contains 10 records, a `next` link and `context.matched = 25`, `get_limited()`
with the default limit 10 returns exactly the first 10 records but issues
exactly **2** Transport requests: the fetch-to-index loop runs while
`len(elements) <= limit`, so after realizing the first 10 records it still
fetches the following page (whose records are realized but cut off by the
`[:limit]` slice). -/
theorem C1_get_limited_two_requests {Rec : Type} (cls : J → J → Rec)
    (xs ys : List J) (fuel : Nat) (hx : xs.length = 10)
    (hxn : ∀ x ∈ xs, pyIsNone x = false) (hyn : ∀ x ∈ ys, pyIsNone x = false)
    (hfuel : 2 ≤ fuel) :
    getLimited cls
        (scenarioTransport
          [("u1", mkPage xs (some "u2") (some 25)),
            ("u2", mkPage ys none none)])
        fuel (freshPL "GET" "u1" "items" J.null J.null J.null) =
      (.ok (xs.map (cls J.null)),
        ⟨xs.map (cls J.null) ++ ys.map (cls J.null), "GET", J.null, J.null,
          J.null, J.null, "items", J.null⟩,
        [⟨"GET", "u1", J.null, J.null, J.null⟩,
          ⟨"GET", "u2", J.null, J.null, J.null⟩]) := by
  set t := scenarioTransport
    [("u1", mkPage xs (some "u2") (some 25)), ("u2", mkPage ys none none)]
    with hts
  obtain ⟨f, rfl⟩ : ∃ f, fuel = f + 2 := ⟨fuel - 2, by omega⟩
  have ht1 : t ⟨"GET", "u1", J.null, J.null, J.null⟩ =
      .ok (J.null, mkPage xs (some "u2") (some 25)) := by
    rw [hts]; rfl
  have ht2 : t ⟨"GET", "u2", J.null, J.null, J.null⟩ =
      .ok (J.null, mkPage ys none none) := by
    rw [hts]; rfl
  have hstep1 := fetchNext_mkPage cls t
    (freshPL "GET" "u1" "items" J.null J.null J.null) "u1" xs (some "u2")
    (some 25) J.null rfl (by decide) (by decide) rfl ht1 hxn
  have hstep2 := fetchNext_mkPage cls t
    (⟨xs.map (cls J.null), "GET", J.str "u2", J.null, J.null, J.num 25,
      "items", J.null⟩ : PL Rec) "u2" ys none none
    J.null rfl (by decide) (by decide) rfl ht2 hyn
  have hlen10 : (xs.map (cls J.null)).length = 10 := by simp [hx]
  have hrw1 := fetchToIndex_step cls t (f + 1) 10
    (freshPL "GET" "u1" "items" J.null J.null J.null) (xs.map (cls J.null))
    _ _ (by constructor <;> simp [freshPL, hasNext, pyIsNone]) hstep1
  have hrw2 := fetchToIndex_step cls t f 10
    (⟨xs.map (cls J.null), "GET", J.str "u2", J.null, J.null, J.num 25,
      "items", J.null⟩ : PL Rec) (ys.map (cls J.null)) _ _
    (by constructor
        · simp [hlen10]
        · simp [hasNext, pyIsNone]) hstep2
  have hdone : fetchToIndex cls t f 10
      (⟨xs.map (cls J.null) ++ ys.map (cls J.null), "GET", J.null, J.null,
        J.null, J.null, "items", J.null⟩ : PL Rec) =
      (.ok (), _, []) :=
    fetchToIndex_done cls t f 10 _
      (by rintro ⟨-, hn⟩; simp [hasNext, pyIsNone] at hn)
  unfold getLimited
  rw [show (if pyTruthy (freshPL "GET" "u1" "items" J.null J.null J.null
        : PL Rec).data then
      pyDictGetD (freshPL "GET" "u1" "items" J.null J.null J.null
        : PL Rec).data "per_page" (J.num PAGINATION_LIMIT)
    else .ok (J.num PAGINATION_LIMIT)) = .ok (J.num 10) from rfl]
  dsimp only
  rw [if_pos (by norm_num [freshPL])]
  rw [show (f + 2 = (f + 1) + 1) by omega]
  rw [hrw1]
  dsimp only [freshPL]
  simp only [List.nil_append]
  rw [hrw2]
  dsimp only
  rw [hdone]
  dsimp only
  rw [show ((10 : Int) = ((10 : Nat) : Int)) by norm_num, pyListTake,
    if_pos (by positivity)]
  rw [Int.toNat_ofNat]
  rw [← hlen10, List.take_left]
  simp

/-- Witness for C1 (amended): records 0–9 on page one (with `next` link and
`matched = 25`), three more on page two; `get_limited()` returns the first 10
records after exactly 2 requests. -/
theorem C1_witness :
    ((jRange 10 0).length = 10 ∧ (∀ x ∈ jRange 10 0, pyIsNone x = false) ∧
      (∀ x ∈ jRange 3 100, pyIsNone x = false) ∧ 2 ≤ 5) ∧
    getLimited idCls
        (scenarioTransport
          [("u1", mkPage (jRange 10 0) (some "u2") (some 25)),
            ("u2", mkPage (jRange 3 100) none none)])
        5 (freshPL "GET" "u1" "items" J.null J.null J.null) =
      (.ok ((jRange 10 0).map (idCls J.null)),
        ⟨(jRange 10 0).map (idCls J.null) ++ (jRange 3 100).map (idCls J.null),
          "GET", J.null, J.null, J.null, J.null, "items", J.null⟩,
        [⟨"GET", "u1", J.null, J.null, J.null⟩,
          ⟨"GET", "u2", J.null, J.null, J.null⟩]) :=
  ⟨⟨rfl, by decide, by decide, by norm_num⟩,
    C1_get_limited_two_requests idCls (jRange 10 0) (jRange 3 100) 5 rfl
      (by decide) (by decide) (by norm_num)⟩

/-! ### Claim C7: supporting lemmas -/

theorem pyDictGet_no_indexError (j : J) (k : String) :
    pyDictGet j k ≠ .error .indexError := by
  cases j <;> simp [pyDictGet]

theorem pyDictGetD_no_indexError (j : J) (k : String) (d : J) :
    pyDictGetD j k d ≠ .error .indexError := by
  cases j <;> simp [pyDictGetD]

theorem pyIter_no_indexError (j : J) :
    pyIter j ≠ .error .indexError := by
  cases j <;> simp [pyIter]

theorem pyIn_no_indexError (k : String) (j : J) :
    pyIn k j ≠ .error .indexError := by
  cases j <;> simp [pyIn]

theorem findNextLink_no_indexError (ll : List J) :
    findNextLink ll ≠ .error .indexError := by
  induction ll with
  | nil => simp [findNextLink]
  | cons ln rest ih =>
    cases ln <;> simp [findNextLink]
    split
    · simp
    · exact ih

theorem fetchNextCore_no_indexError {Rec : Type} (cls : J → J → Rec)
    (t : Transport) (s : PL Rec) (u : String) :
    (fetchNextCore cls t s u).1 ≠ .error .indexError := by
  unfold fetchNextCore
  dsimp only
  repeat' split
  all_goals
    intro hc
  all_goals
    first
      | (simp at hc
         done)
      | (dsimp only at hc
         injection hc with h
         subst h
         first
           | exact pyDictGetD_no_indexError _ _ _ (by assumption)
           | exact pyDictGet_no_indexError _ _ (by assumption)
           | exact pyIter_no_indexError _ (by assumption)
           | exact pyIn_no_indexError _ _ (by assumption)
           | exact findNextLink_no_indexError _ (by assumption))

theorem fetchNext_no_indexError {Rec : Type} (cls : J → J → Rec)
    (t : Transport) (s : PL Rec) :
    (fetchNext cls t s).1 ≠ .error .indexError := by
  unfold fetchNext
  dsimp only
  repeat' split
  all_goals
    first
      | (simp
         done)
      | apply fetchNextCore_no_indexError

theorem fetchToIndex_no_indexError {Rec : Type} (cls : J → J → Rec)
    (t : Transport) :
    ∀ (fuel : Nat) (i : Int) (s : PL Rec),
      (fetchToIndex cls t fuel i s).1 ≠ .error .indexError := by
  intro fuel
  induction fuel with
  | zero =>
    intro i s
    unfold fetchToIndex
    split
    · simp
    · simp
  | succ n ih =>
    intro i s
    unfold fetchToIndex
    split
    · dsimp only
      split
      · rename_i e sa reqsa heq
        intro hc
        dsimp only at hc
        injection hc with h
        subst h
        exact fetchNext_no_indexError cls t s (by rw [heq])
      · rename_i batch sa reqsa heq
        dsimp only
        exact ih i _
    · simp

theorem fetchToIndex_elements_mono {Rec : Type} (cls : J → J → Rec)
    (t : Transport) :
    ∀ (fuel : Nat) (i : Int) (s : PL Rec),
      ∃ ext, ((fetchToIndex cls t fuel i s).2.1).elements = s.elements ++ ext := by
  intro fuel
  induction fuel with
  | zero =>
    intro i s
    unfold fetchToIndex
    split
    · exact ⟨[], by simp⟩
    · exact ⟨[], by simp⟩
  | succ n ih =>
    intro i s
    unfold fetchToIndex
    split
    · dsimp only
      split
      · rename_i e sa reqsa heq
        have hsa := fetchNext_elements cls t s
        rw [heq] at hsa
        simp only at hsa
        exact ⟨[], by simpa using hsa⟩
      · rename_i batch sa reqsa heq
        dsimp only
        have hsa := fetchNext_elements cls t s
        rw [heq] at hsa
        simp only at hsa
        obtain ⟨ext, hext⟩ := ih i { sa with elements := sa.elements ++ batch }
        refine ⟨batch ++ ext, ?_⟩
        rw [hext]
        simp only
        rw [hsa, List.append_assoc]
    · exact ⟨[], by simp⟩

theorem fetchToIndex_ok_post {Rec : Type} (cls : J → J → Rec) (t : Transport) :
    ∀ (fuel : Nat) (i : Int) (s : PL Rec) (s' : PL Rec) (reqs : List Request),
      fetchToIndex cls t fuel i s = (.ok (), s', reqs) →
        ¬((s'.elements.length : Int) ≤ i ∧ hasNext s') := by
  intro fuel
  induction fuel with
  | zero =>
    intro i s s' reqs h
    unfold fetchToIndex at h
    split at h
    · simp at h
    · rename_i hcond
      simp only [Prod.mk.injEq] at h
      obtain ⟨-, rfl, -⟩ := h
      exact hcond
  | succ n ih =>
    intro i s s' reqs h
    unfold fetchToIndex at h
    split at h
    · dsimp only at h
      split at h
      · simp at h
      · rename_i batch sa reqsa heq
        set out := fetchToIndex cls t n i { sa with elements := sa.elements ++ batch }
          with hout
        simp only [Prod.mk.injEq] at h
        obtain ⟨h1, h2, h3⟩ := h
        have heq2 : fetchToIndex cls t n i { sa with elements := sa.elements ++ batch }
            = (.ok (), out.2.1, out.2.2) := by
          rw [← hout, ← h1]
        have := ih i _ _ _ heq2
        rw [← h2]
        exact this
    · rename_i hcond
      simp only [Prod.mk.injEq] at h
      obtain ⟨-, rfl, -⟩ := h
      exact hcond

theorem pyListGet_nonneg {α : Type} (xs : List α) (i : Int) (h : 0 ≤ i) :
    pyListGet xs i = xs.get? i.toNat := by
  unfold pyListGet
  have hni : ¬(i < 0) := by omega
  simp only [hni, if_false, h, if_true]

theorem getItem_spec {Rec : Type} (cls : J → J → Rec) (t : Transport) (f : Nat)
    (i : Int) (s : PL Rec) (res : Except PyErr Rec) (s' : PL Rec)
    (reqs : List Request) (h : getItem cls t f i s = (res, s', reqs)) :
    (∃ ext, s'.elements = s.elements ++ ext) ∧
    (∀ r, res = .ok r → pyListGet s'.elements i = some r) ∧
    (res = .error .indexError →
      pyListGet s'.elements i = none ∧
        ¬((s'.elements.length : Int) ≤ i ∧ hasNext s')) := by
  unfold getItem at h
  split at h
  · rename_i e s1 reqs1 heq
    simp only [Prod.mk.injEq] at h
    obtain ⟨rfl, rfl, rfl⟩ := h
    have hmono := fetchToIndex_elements_mono cls t f i s
    rw [heq] at hmono
    refine ⟨hmono, ?_, ?_⟩
    · intro r hr
      simp at hr
    · intro hr
      injection hr with he
      subst he
      exact absurd (by rw [heq]) (fetchToIndex_no_indexError cls t f i s)
  · rename_i u1 s1 reqs1 heq
    have hmono := fetchToIndex_elements_mono cls t f i s
    rw [heq] at hmono
    simp only at hmono
    split at h
    · rename_i r hget
      simp only [Prod.mk.injEq] at h
      obtain ⟨rfl, rfl, rfl⟩ := h
      refine ⟨hmono, ?_, ?_⟩
      · intro r' hr'
        injection hr' with hrr
        subst hrr
        exact hget
      · intro hr
        simp at hr
    · rename_i hget
      simp only [Prod.mk.injEq] at h
      obtain ⟨rfl, rfl, rfl⟩ := h
      refine ⟨hmono, ?_, ?_⟩
      · intro r' hr'
        simp at hr'
      · intro _
        refine ⟨hget, ?_⟩
        cases u1
        exact fetchToIndex_ok_post cls t f i s s1 reqs1 heq

theorem sliceStopHit_false {stop : Option Int} {idx : Int}
    (h : sliceStopHit stop idx = false) :
    ∀ m, stop = some m → idx < m := by
  intro m hm
  subst hm
  simp only [sliceStopHit, decide_eq_false_iff_not] at h
  omega

theorem sliceIter_elements_mono {Rec : Type} (cls : J → J → Rec)
    (t : Transport) (f : Nat) :
    ∀ (fuel : Nat) (idx : Int) (stop : Option Int) (step : Int) (s : PL Rec),
      ∃ ext, ((sliceIter cls t f fuel idx stop step s).2.2.1).elements =
        s.elements ++ ext := by
  intro fuel
  induction fuel with
  | zero =>
    intro idx stop step s
    unfold sliceIter
    split
    · exact ⟨[], by simp⟩
    · split
      · exact ⟨[], by simp⟩
      · exact ⟨[], by simp⟩
  | succ n ih =>
    intro idx stop step s
    unfold sliceIter
    split
    · exact ⟨[], by simp⟩
    · split
      · dsimp only
        split
        · rename_i e s1 reqs1 heq
          have hm := (getItem_spec cls t f idx s _ _ _ heq).1
          exact ⟨hm.choose, by simpa using hm.choose_spec⟩
        · rename_i r s1 reqs1 heq
          dsimp only
          have hm := (getItem_spec cls t f idx s _ _ _ heq).1
          obtain ⟨ext1, hext1⟩ := hm
          obtain ⟨ext2, hext2⟩ := ih (idx + step) stop step s1
          refine ⟨ext1 ++ ext2, ?_⟩
          rw [hext2, hext1, List.append_assoc]
      · exact ⟨[], by simp⟩

/-- C7 (amended): for every Slice View with nonnegative start and positive
(normalized) step, iterating visits positions `start`, `start + step`, …,
all below `stop`: every yielded record is exactly the record at its position
in the target's realized buffer (so pages are only fetched by the
`__getitem__` calls at positions below `stop`), and the loop ends normally
when `stop` is reached or when the pre-check finds the position unrealized
with no next page.  But when the pre-check passes because the target still
claims a next page and the target then exhausts below the position, the
iteration raises `IndexError` instead of terminating normally: on an
`IndexError` the target has fully exhausted (`has_next` is false) with fewer
realized records than the failing position, which is itself below `stop`. -/
theorem C7_slice_iteration_amended {Rec : Type} (cls : J → J → Rec)
    (t : Transport) (f : Nat) :
    ∀ (fuel : Nat) (idx : Int) (stop : Option Int) (step : Int) (s : PL Rec)
      (ys : List Rec) (err : Option PyErr) (s' : PL Rec) (reqs : List Request),
      1 ≤ step → 0 ≤ idx →
      sliceIter cls t f fuel idx stop step s = (ys, err, s', reqs) →
        (∀ (k : Nat) (r : Rec), ys.get? k = some r →
          (∀ m, stop = some m → idx + k * step < m) ∧
          s'.elements.get? (idx + k * step).toNat = some r) ∧
        (err = some .indexError →
          hasNext s' = false ∧
          (s'.elements.length : Int) ≤ idx + ys.length * step ∧
          (∀ m, stop = some m → idx + ys.length * step < m)) := by
  intro fuel
  induction fuel with
  | zero =>
    intro idx stop step s ys err s' reqs hstep hidx h
    unfold sliceIter at h
    split at h
    · simp only [Prod.mk.injEq] at h
      obtain ⟨rfl, rfl, rfl, rfl⟩ := h
      exact ⟨fun k r hk => by simp at hk, fun herr => by simp at herr⟩
    · split at h
      · simp only [Prod.mk.injEq] at h
        obtain ⟨rfl, rfl, rfl, rfl⟩ := h
        refine ⟨fun k r hk => by simp at hk, fun herr => ?_⟩
        injection herr with he
        simp at he
      · simp only [Prod.mk.injEq] at h
        obtain ⟨rfl, rfl, rfl, rfl⟩ := h
        exact ⟨fun k r hk => by simp at hk, fun herr => by simp at herr⟩
  | succ n ih =>
    intro idx stop step s ys err s' reqs hstep hidx h
    unfold sliceIter at h
    split at h
    · simp only [Prod.mk.injEq] at h
      obtain ⟨rfl, rfl, rfl, rfl⟩ := h
      exact ⟨fun k r hk => by simp at hk, fun herr => by simp at herr⟩
    · rename_i hstop
      have hstop' : sliceStopHit stop idx = false := by
        revert hstop
        cases sliceStopHit stop idx <;> simp
      split at h
      · dsimp only at h
        split at h
        · rename_i e s1 reqs1 heq
          simp only [Prod.mk.injEq] at h
          obtain ⟨rfl, rfl, rfl, rfl⟩ := h
          refine ⟨fun k r hk => by simp at hk, fun herr => ?_⟩
          injection herr with he
          subst he
          obtain ⟨hget, hpost⟩ := (getItem_spec cls t f idx s _ _ _ heq).2.2 rfl
          rw [pyListGet_nonneg _ _ hidx] at hget
          have hlen : (s1.elements.length : Int) ≤ idx := by
            have := List.get?_eq_none.mp hget
            omega
          have hnn : hasNext s1 = false := by
            revert hpost
            cases hn : hasNext s1
            · intro _; rfl
            · intro hpost
              exact absurd ⟨hlen, rfl⟩ hpost
          refine ⟨hnn, ?_, ?_⟩
          · simpa using hlen
          · intro m hm
            have := sliceStopHit_false hstop' m hm
            simpa using this
        · rename_i r s1 reqs1 heq
          set out := sliceIter cls t f n (idx + step) stop step s1 with hout
          simp only [Prod.mk.injEq] at h
          obtain ⟨rfl, rfl, rfl, rfl⟩ := h
          have heq2 : sliceIter cls t f n (idx + step) stop step s1 =
              (out.1, out.2.1, out.2.2.1, out.2.2.2) := by
            rw [← hout]
          have hpair := ih (idx + step) stop step s1 out.1 out.2.1 out.2.2.1
            out.2.2.2 hstep (by omega) heq2
          obtain ⟨extm, hextm⟩ := sliceIter_elements_mono cls t f n (idx + step)
            stop step s1
          rw [← hout] at hextm
          constructor
          · intro k r' hk
            cases k with
            | zero =>
              simp only [List.get?] at hk
              injection hk with hrr
              subst hrr
              have hget := (getItem_spec cls t f idx s _ _ _ heq).2.1 r rfl
              rw [pyListGet_nonneg _ _ hidx] at hget
              have hlt : idx.toNat < s1.elements.length := by
                obtain ⟨hlt, -⟩ := List.get?_eq_some.mp hget
                exact hlt
              constructor
              · intro m hm
                have := sliceStopHit_false hstop' m hm
                simpa using this
              · have hz : idx + (0 : Nat) * step = idx := by push_cast; ring
                rw [hz, hextm, List.get?_append hlt]
                exact hget
            | succ k =>
              simp only [List.get?] at hk
              have hk' := (hpair.1 k r' hk)
              have harith : idx + ((k + 1 : Nat) : Int) * step =
                  (idx + step) + (k : Nat) * step := by push_cast; ring
              rw [harith]
              exact hk'
          · intro herr
            obtain ⟨hn, hlen, hsb⟩ := hpair.2 herr
            have harith : idx + (((out.1.length + 1 : Nat)) : Int) * step =
                (idx + step) + (out.1.length : Int) * step := by push_cast; ring
            refine ⟨hn, ?_, ?_⟩
            · simp only [List.length_cons]
              rw [harith]
              exact hlen
            · intro m hm
              simp only [List.length_cons]
              rw [harith]
              exact hsb m hm
      · simp only [Prod.mk.injEq] at h
        obtain ⟨rfl, rfl, rfl, rfl⟩ := h
        exact ⟨fun k r hk => by simp at hk, fun herr => by simp at herr⟩

/-- Counterexample to C7 as stated: a slice `[5:10]` (normalized start 5,
stop 10, step 1) over a target whose server holds only one record.  At
position 5 the pre-check passes because the target still has a next page, but
the target exhausts with a single record, so iteration raises `IndexError`
instead of terminating normally — "terminates normally (rather than failing)
as soon as a position is neither already realized nor reachable" is false. -/
theorem C7_counterexample :
    sliceStart (some 5) = 5 ∧ sliceStep (some 1) = 1 ∧
    sliceIter idCls (scenarioTransport [("u1", mkPage (jRange 1 0) none none)])
        3 3 5 (some 10) 1 (freshPL "GET" "u1" "items" J.null J.null J.null) =
      ([], some .indexError,
        ⟨[J.num 0], "GET", J.null, J.null, J.null, J.null, "items", J.null⟩,
        [⟨"GET", "u1", J.null, J.null, J.null⟩]) :=
  ⟨rfl, rfl, rfl⟩

/-- Witness for C7 (amended): slice `[1:5:2]` over a single 3-record page;
iteration yields the record at position 1 and then terminates normally when
position 3 is unrealized with no next page; the theorem's position fact is
checked at `k = 0`. -/
theorem C7_witness :
    ((1 : Int) ≤ 2 ∧ (0 : Int) ≤ 1 ∧
      sliceIter idCls
          (scenarioTransport [("u1", mkPage (jRange 3 0) none none)]) 5 2 1
          (some 5) 2 (freshPL "GET" "u1" "items" J.null J.null J.null) =
        ([J.num 1], none,
          ⟨[J.num 0, J.num 1, J.num 2], "GET", J.null, J.null, J.null, J.null,
            "items", J.null⟩,
          [⟨"GET", "u1", J.null, J.null, J.null⟩])) ∧
    ((∀ m : Int, (some 5 : Option Int) = some m → 1 + ((0 : Nat) : Int) * 2 < m) ∧
      (⟨[J.num 0, J.num 1, J.num 2], "GET", J.null, J.null, J.null, J.null,
          "items", J.null⟩ : PL J).elements.get?
          ((1 + ((0 : Nat) : Int) * 2)).toNat = some (J.num 1)) :=
  ⟨⟨by norm_num, by norm_num, rfl⟩,
    (C7_slice_iteration_amended idCls
      (scenarioTransport [("u1", mkPage (jRange 3 0) none none)]) 5 2 1
      (some 5) 2 (freshPL "GET" "u1" "items" J.null J.null J.null)
      [J.num 1] none
      ⟨[J.num 0, J.num 1, J.num 2], "GET", J.null, J.null, J.null, J.null,
        "items", J.null⟩
      [⟨"GET", "u1", J.null, J.null, J.null⟩]
      (by norm_num) (by norm_num) rfl).1 0 (J.num 1) rfl⟩
